import Mathlib

/-!
Verification of the Collective Intelligence Network ingestion core.

Shallow embedding of the admission-control gate (`agent/state.py`), the
payload validator (`utils/validation.py`), the post store (`database.py`),
the ingestion endpoint (`webhook/routes.py`), the pipeline moderation stage
(`agent/controller.py`, `utils/safety.py`) and the harvester submit loop
(`feed_collector.py`), together with theorems settling the spec claims.

External library calls (Python stdlib `datetime.fromisoformat`, `re.search`,
`hashlib.md5`, the wall clock, `uuid4`) are passed in as parameters: they are
not code of this repository.
-/

namespace CIN

/-- JSON-like values, the shape of webhook payload data after `request.get_json`. -/
inductive JValue where
  | jstr  : String → JValue
  | jnum  : Int → JValue
  | jarr  : List JValue → JValue
  | jobj  : List (String × JValue) → JValue
  | jbool : Bool → JValue
  | jnull : JValue

/-- Python `str.lower` (the stdlib case mapping, character-wise). -/
def pyLower (s : String) : String :=
  String.mk (s.data.map Char.toLower)

/-- Python `str.strip` with no argument: drop leading and trailing whitespace. -/
def pyStrip (s : String) : String :=
  String.mk (((s.data.dropWhile Char.isWhitespace).reverse.dropWhile Char.isWhitespace).reverse)

/-- Dictionary lookup (`field in data` / `data[field]`); Python dict keys are unique,
so first-match lookup is faithful. -/
def jlookup : List (String × JValue) → String → Option JValue
  | [], _ => none
  | (k, v) :: rest, key => if k == key then some v else jlookup rest key

/-- Python `type(x).__name__` restricted to JSON-representable values. -/
def typeName : JValue → String
  | .jstr _ => "str"
  | .jnum _ => "int"
  | .jarr _ => "list"
  | .jobj _ => "dict"
  | .jbool _ => "bool"
  | .jnull  => "NoneType"

/-- String payload of a JSON value (used only after an `isinstance(_, str)` check). -/
def getStr : JValue → String
  | .jstr s => s
  | _ => ""

/-- List payload of a JSON value (used only after an `isinstance(_, list)` check). -/
def getList : JValue → List JValue
  | .jarr l => l
  | _ => []

def isStr : JValue → Bool
  | .jstr _ => true
  | _ => false

/-- `REQUIRED_FIELDS` of `utils/validation.py`, in dict insertion order,
with the expected Python type name. -/
def REQUIRED_FIELDS : List (String × String) :=
  [("domain", "str"), ("headline", "str"), ("content", "str"),
   ("sources", "list"), ("timestamp", "str")]

/-- `ALLOWED_DOMAINS` of `utils/validation.py` (defined there, in this order). -/
def ALLOWED_DOMAINS : List String :=
  ["Technology", "Politics", "Economics", "Health", "Science",
   "Environment", "Energy", "Space", "Security", "Education",
   "Business", "General"]

/-- First loop of `validate_payload`: required-field presence and type checks. -/
def checkRequired (data : List (String × JValue)) : List (String × String) → Option String
  | [] => none
  | (field, ty) :: rest =>
    match jlookup data field with
    | none => some ("Missing required field: \x27" ++ field ++ "\x27.")
    | some v =>
      if typeName v != ty then
        some ("Field \x27" ++ field ++ "\x27 must be of type " ++ ty ++
              ", got " ++ typeName v ++ ".")
      else checkRequired data rest

/-- Second loop of `validate_payload`: non-empty (after `strip`) string checks. -/
def checkNonEmpty (data : List (String × JValue)) : List String → Option String
  | [] => none
  | field :: rest =>
    if pyStrip (getStr ((jlookup data field).getD .jnull)) == "" then
      some ("Field \x27" ++ field ++ "\x27 must not be empty.")
    else checkNonEmpty data rest

/-- `utils/validation.py: validate_payload`.  `iso_ok` stands for success of the
stdlib call `datetime.fromisoformat` (external to the repository). -/
def validate_payload (iso_ok : String → Bool) (data : JValue) : Bool × Option String :=
  match data with
  | .jobj kvs =>
    match checkRequired kvs REQUIRED_FIELDS with
    | some msg => (false, some msg)
    | none =>
      match checkNonEmpty kvs ["domain", "headline", "content", "timestamp"] with
      | some msg => (false, some msg)
      | none =>
        let sources := getList ((jlookup kvs "sources").getD .jnull)
        if sources.isEmpty then
          (false, some "Field \x27sources\x27 must contain at least one entry.")
        else if !(sources.all isStr) then
          (false, some "All entries in \x27sources\x27 must be strings.")
        else if !(iso_ok ((getStr ((jlookup kvs "timestamp").getD .jnull)).replace "Z" "+00:00")) then
          (false, some "Field \x27timestamp\x27 must be a valid ISO-8601 datetime string.")
        else if (getStr ((jlookup kvs "headline").getD .jnull)).length > 500 then
          (false, some "Field \x27headline\x27 must not exceed 500 characters.")
        else if (getStr ((jlookup kvs "content").getD .jnull)).length > 50000 then
          (false, some "Field \x27content\x27 must not exceed 50,000 characters.")
        else (true, none)
  | _ => (false, some "Payload must be a JSON object.")

/-- A row of the `posts` table (`database.py`).  JSON-array columns are kept as
lists; `confidence_score` is kept as an integer (all writers pass integers). -/
structure Post where
  id : String
  title : String
  domain : String
  summary : String
  content : String
  key_points : List String
  why_this_matters : String
  sources : List String
  confidence_score : Int
  created_at : String
  status : String
  headline_hash : String
deriving DecidableEq

/-- `database.py: _normalise` — `headline.lower().strip()`. -/
def normalise (headline : String) : String :=
  pyStrip (pyLower headline)

/-- `database.py: headline_exists` — a matching row with status published or
processing exists (`SELECT 1 ... LIMIT 1` is non-empty iff some row matches). -/
def headline_exists (store : List Post) (headline : String) : Bool :=
  let h := normalise headline
  store.any fun p =>
    p.headline_hash == h && (p.status == "published" || p.status == "processing")

/-- `database.py: cleanup_stale_processing`.  `cutoff` stands for the computed
wall-clock cutoff ISO string of the non-zero branch (SQLite compares the TEXT
column lexicographically).  Returns the new table and `cur.rowcount`. -/
def cleanup_stale_processing (max_age_minutes : Nat) (cutoff : String) (store : List Post) :
    List Post × Nat :=
  if max_age_minutes == 0 then
    ((store.map fun p => if p.status == "processing" then { p with status := "rejected" } else p),
     (store.filter fun p => p.status == "processing").length)
  else
    ((store.map fun p =>
        if p.status == "processing" && decide (p.created_at < cutoff) then
          { p with status := "rejected" }
        else p),
     (store.filter fun p => p.status == "processing" && decide (p.created_at < cutoff)).length)

/-- Modelled from the spec: the server entry module that registers the webhook
blueprint and performs the startup sweep is not under `src/` (only the store
function `database.cleanup_stale_processing` and its docstring are).  Per the
spec, the sweep "must run once at process startup with max_age = 0". -/
def startup_sweep (store : List Post) : List Post :=
  (cleanup_stale_processing 0 "" store).1

/-- The dict argument of `database.py: save_post`: a field is `none` when the
key is absent (so `post.get(k, default)` falls back to the default). -/
structure PostDict where
  id : String
  title : Option String := none
  domain : Option String := none
  summary : Option String := none
  content : Option String := none
  key_points : Option (List String) := none
  why_this_matters : Option String := none
  sources : Option (List String) := none
  confidence_score : Option Int := none
  created_at : Option String := none
  status : Option String := none

/-- `database.py: save_post`.  `now_iso` stands for `datetime.utcnow().isoformat()`.
`none` models the `INSERT` raising on a duplicate primary key. -/
def save_post (now_iso : String) (post : PostDict) (store : List Post) : Option (List Post) :=
  if store.any (fun p => p.id == post.id) then none
  else
    some (store ++ [{
      id := post.id
      title := post.title.getD ""
      domain := post.domain.getD "General"
      summary := post.summary.getD ""
      content := post.content.getD ""
      key_points := post.key_points.getD []
      why_this_matters := post.why_this_matters.getD ""
      sources := post.sources.getD []
      confidence_score := post.confidence_score.getD 0
      created_at := post.created_at.getD now_iso
      status := post.status.getD "published"
      headline_hash := normalise (post.title.getD "") }])

/-- A value in the `updates` map of `database.py: update_post`
(string / JSON-array / numeric columns). -/
inductive FieldVal where
  | s : String → FieldVal
  | l : List String → FieldVal
  | n : Int → FieldVal
deriving DecidableEq

/-- Keys of the `field_map` of `update_post`, in dict insertion order. -/
def FIELD_KEYS : List String :=
  ["title", "domain", "summary", "content", "key_points",
   "why_this_matters", "sources", "confidence_score", "status"]

/-- Apply one `SET column = value` clause of `update_post` to a row.  Every
caller in the source passes the column its own type; a mismatched variant
leaves the row unchanged.  No key ever touches `headline_hash`. -/
def setField (p : Post) (key : String) (v : FieldVal) : Post :=
  if key == "title" then match v with | .s x => { p with title := x } | _ => p
  else if key == "domain" then match v with | .s x => { p with domain := x } | _ => p
  else if key == "summary" then match v with | .s x => { p with summary := x } | _ => p
  else if key == "content" then match v with | .s x => { p with content := x } | _ => p
  else if key == "key_points" then match v with | .l x => { p with key_points := x } | _ => p
  else if key == "why_this_matters" then
    match v with | .s x => { p with why_this_matters := x } | _ => p
  else if key == "sources" then match v with | .l x => { p with sources := x } | _ => p
  else if key == "confidence_score" then
    match v with | .n x => { p with confidence_score := x } | _ => p
  else if key == "status" then match v with | .s x => { p with status := x } | _ => p
  else p

/-- `database.py: update_post`.  Builds the `SET` clauses from the keys of
`field_map` present in `updates`; returns without touching the table when no
clause was built; otherwise updates the row whose primary key is `post_id`. -/
def update_post (post_id : String) (updates : List (String × FieldVal)) (store : List Post) :
    List Post :=
  let present := FIELD_KEYS.filter fun k => (updates.lookup k).isSome
  if present.isEmpty then store
  else
    store.map fun p =>
      if p.id == post_id then
        present.foldl (fun q k =>
          match updates.lookup k with
          | some v => setField q k v
          | none => q) p
      else p

/-- `agent/state.py: AgentState` — the in-memory gate.  Timestamps are abstract
naturals; `none` is Python `None`.  All methods run inside `self._lock`, so the
embedding is the atomic state transition. -/
structure AgentState where
  busy : Bool
  current_headline : Option String
  busy_since : Option Nat
deriving DecidableEq

/-- `AgentState.__init__`. -/
def AgentState.mk0 : AgentState :=
  { busy := false, current_headline := none, busy_since := none }

/-- `agent/state.py: AgentState.try_acquire`.  `now` stands for
`datetime.now(timezone.utc)`. -/
def AgentState.try_acquire (s : AgentState) (now : Nat) (headline : String) :
    Bool × AgentState :=
  if s.busy then (false, s)
  else (true, { busy := true, current_headline := some headline, busy_since := some now })

/-- `agent/state.py: AgentState.release` — total (never raises); logs and
returns when already ready. -/
def AgentState.release (s : AgentState) : AgentState :=
  if !s.busy then s
  else { busy := false, current_headline := none, busy_since := none }

/-- `agent/state.py: AgentState.status_dict` snapshot. -/
structure StatusDict where
  ready : Bool
  busy : Bool
  current_headline : Option String
  busy_since : Option Nat
  elapsed_seconds : Option Nat
deriving DecidableEq

/-- `agent/state.py: AgentState.status_dict`. -/
def AgentState.status_dict (s : AgentState) (now : Nat) : StatusDict :=
  { ready := !s.busy
    busy := s.busy
    current_headline := s.current_headline
    busy_since := s.busy_since
    elapsed_seconds :=
      match s.busy, s.busy_since with
      | true, some t => some (now - t)
      | _, _ => none }

/-- The gate-state invariant stated by the spec data model. -/
def gateInv (s : AgentState) : Prop :=
  (s.busy = true → s.current_headline.isSome ∧ s.busy_since.isSome) ∧
  (s.busy = false → s.current_headline = none ∧ s.busy_since = none)

instance (s : AgentState) : Decidable (gateInv s) := by
  unfold gateInv; infer_instance

/-- Per-request environment of `webhook/routes.py`: the configured secret
(`os.getenv("WEBHOOK_SECRET", "")`), the stdlib ISO-8601 parser, the wall
clock, and the `uuid4` drawn for this request. -/
structure Env where
  webhook_secret : String
  iso_ok : String → Bool
  now_iso : String
  now : Nat
  fresh_id : String

/-- `webhook/routes.py: _get_secret`. -/
def Env.get_secret (env : Env) : String :=
  env.webhook_secret

/-- `webhook/routes.py: _token_valid`.  `hmac.compare_digest` on byte-encoded
strings decides exactly string equality (the constant-time aspect is a timing
property, not a functional one). -/
def token_valid (env : Env) (provided : String) : Bool :=
  let expected := env.get_secret
  if expected == "" then false
  else provided == expected

/-- The JSON body and HTTP code returned by `receive_update`.  `post_id` and
`current_headline` are `none` when the body has no such key. -/
structure WebhookResponse where
  status : String
  message : String
  post_id : Option String := none
  current_headline : Option String := none
  code : Nat
deriving DecidableEq

/-- The key/value list of a JSON object (a validated payload is always one). -/
def jfieldsOf : JValue → List (String × JValue)
  | .jobj kvs => kvs
  | _ => []

/-- `data["headline"]` as read by the route (a string once validation passed). -/
def headlineOf (kvs : List (String × JValue)) : String :=
  getStr ((jlookup kvs "headline").getD .jnull)

/-- `data.get("domain", "General")` as read by the route. -/
def domainOf (kvs : List (String × JValue)) : String :=
  match jlookup kvs "domain" with
  | some v => getStr v
  | none => "General"

/-- `data.get("sources", [])` as read by the route (strings once validation passed). -/
def sourcesOf (kvs : List (String × JValue)) : List String :=
  match jlookup kvs "sources" with
  | some v => (getList v).map getStr
  | none => []

/-- `webhook/routes.py: receive_update`.  Inputs: the `X-Webhook-Token` header
(`""` when missing), `request.is_json`, the parse result of the body (`none`
for malformed JSON), the gate and the store.  Returns the HTTP response and
the new gate/store.  The un-caught `save_post` conflict (a `uuid4` collision
would raise through Flask as a 500) is the final branch. -/
def receive_update (env : Env) (token : String) (is_json : Bool) (body : Option JValue)
    (gate : AgentState) (store : List Post) :
    WebhookResponse × AgentState × List Post :=
  if token == "" then
    ({ status := "error"
       message := "Missing authentication token. Provide X-Webhook-Token header."
       code := 401 }, gate, store)
  else if !(token_valid env token) then
    ({ status := "error", message := "Invalid authentication token.", code := 401 },
     gate, store)
  else if !is_json then
    ({ status := "error"
       message := "Request body must be JSON (Content-Type: application/json)."
       code := 400 }, gate, store)
  else
    match body with
    | none =>
      ({ status := "error", message := "Malformed JSON body.", code := 400 }, gate, store)
    | some data =>
      match validate_payload env.iso_ok data with
      | (false, msg) =>
        ({ status := "error", message := msg.getD "", code := 400 }, gate, store)
      | (true, _) =>
        let kvs := jfieldsOf data
        let headline := headlineOf kvs
        if headline_exists store headline then
          ({ status := "duplicate"
             message := "This headline has already been processed."
             post_id := none
             code := 200 }, gate, store)
        else
          match gate.try_acquire env.now headline with
          | (false, gate1) =>
            let current :=
              match gate1.current_headline with
              | some h => if h == "" then "unknown" else h
              | none => "unknown"
            ({ status := "busy"
               message := "AI agent is currently processing another article. Please retry later."
               current_headline := some current
               code := 503 }, gate1, store)
          | (true, gate1) =>
            let placeholder : PostDict :=
              { id := env.fresh_id
                title := some headline
                domain := some (domainOf kvs)
                summary := some ""
                key_points := some []
                why_this_matters := some ""
                sources := some (sourcesOf kvs)
                confidence_score := some 0
                status := some "processing" }
            match save_post env.now_iso placeholder store with
            | none =>
              ({ status := "error", message := "Internal Server Error", code := 500 },
               gate1, store)
            | some store1 =>
              ({ status := "accepted"
                 message := "Agent is now processing your article. It is busy until the post is published."
                 post_id := some env.fresh_id
                 code := 202 }, gate1, store1)

/-- A generated draft as returned by `agent/generator.py: generate_post` and
consumed by the controller: the generator always supplies every key shown here
(`content` defaults to `""` on the fallback path, which builds no such key —
the controller reads it with `generated.get("content", "")`). -/
structure GenPost where
  title : String := ""
  summary : String := ""
  content : String := ""
  key_points : List String := []
  why_this_matters : String := ""
  sources : List String := []
  confidence_score : Int := 0
  domain : String := ""
deriving DecidableEq

/-- `utils/safety.py: build_check_text` —
`" ".join([title, summary, why_this_matters, " ".join(key_points)])`. -/
def build_check_text (post : GenPost) : String :=
  String.intercalate " "
    [post.title, post.summary, post.why_this_matters,
     String.intercalate " " post.key_points]

/-- `utils/safety.py: run_safety_filter`, parameterised by `_COMPILED`: the
blocklist as (category, compiled-regex-search) pairs — the regex engine is the
Python stdlib.  Returns on the first matching pattern. -/
def run_safety_filter (compiled : List (String × (String → Bool))) (text : String) :
    Bool × Option String :=
  match compiled.find? (fun cp => cp.2 text) with
  | some (category, _) =>
    (false, some ("Content blocked: matched " ++ category ++ " filter."))
  | none => (true, none)

/-- Written from the claim wording, for refutation only: the safety-check text
as the claim describes it — the concatenation of the draft's title, summary,
content, key_points and why_this_matters. -/
def claimed_check_text (post : GenPost) : String :=
  String.intercalate " "
    [post.title, post.summary, post.content,
     String.intercalate " " post.key_points, post.why_this_matters]

/-- The `updates` dict built by `agent/controller.py: _reject` when a draft
exists (the safety-rejection path). -/
def rejectUpdates (generated : GenPost) (payload_sources : List String) :
    List (String × FieldVal) :=
  [("title", .s generated.title),
   ("summary", .s generated.summary),
   ("key_points", .l generated.key_points),
   ("why_this_matters", .s generated.why_this_matters),
   ("sources", .l payload_sources),
   ("confidence_score", .n 0),
   ("status", .s "rejected")]

/-- The `updates` dict built by the publish step of `run_agent_pipeline`. -/
def publishUpdates (generated : GenPost) : List (String × FieldVal) :=
  [("title", .s generated.title),
   ("domain", .s generated.domain),
   ("summary", .s generated.summary),
   ("content", .s generated.content),
   ("key_points", .l generated.key_points),
   ("why_this_matters", .s generated.why_this_matters),
   ("sources", .l generated.sources),
   ("confidence_score", .n generated.confidence_score),
   ("status", .s "published")]

/-- `agent/controller.py: run_agent_pipeline` from the safety check on (the
generation call itself is the external ContentGenerator; its non-`None` draft
is the input; the verification stage is skipped in the source).  Returns the
result's `status` and `message` together with the new store. -/
def moderate_and_finish (compiled : List (String × (String → Bool)))
    (generated : GenPost) (payload_sources : List String) (post_id : String)
    (store : List Post) : (String × String) × List Post :=
  let check_text := build_check_text generated
  match run_safety_filter compiled check_text with
  | (false, safety_reason) =>
    let reason := safety_reason.getD ""
    (("rejected", reason), update_post post_id (rejectUpdates generated payload_sources) store)
  | (true, _) =>
    (("published",
      "Post published successfully. Confidence: " ++ toString generated.confidence_score ++ "%"),
     update_post post_id (publishUpdates generated) store)

/-- Outcome of one `requests.post` call in `feed_collector.py: send_to_webhook`:
an HTTP response with a status code, a connection error, or another exception. -/
inductive HttpResult where
  | resp : Nat → HttpResult
  | connectionError : HttpResult
  | otherError : HttpResult

/-- `feed_collector.py: MAX_BUSY_RETRIES`. -/
def MAX_BUSY_RETRIES : Nat := 10

/-- The `for attempt in range(1, MAX_BUSY_RETRIES + 1)` loop of
`send_to_webhook`.  `responses` maps the attempt number to that POST's
outcome; `fp` is the item's fingerprint, `seen` the `_SEEN` cache; `posted`
counts POSTs performed.  Note the source adds `fp` to `_SEEN` after every
completed POST — including a 503 — but not after an exception. -/
def sendAttempts (responses : Nat → HttpResult) (fp : String) :
    List String → Nat → Nat → Nat → Bool × List String × Nat
  | seen, _, 0, posted => (false, seen, posted)
  | seen, attempt, fuel + 1, posted =>
    match responses attempt with
    | .connectionError => (false, seen, posted + 1)
    | .otherError => (false, seen, posted + 1)
    | .resp code =>
      let seen1 := fp :: seen
      if code == 202 then (true, seen1, posted + 1)
      else if code == 200 then (false, seen1, posted + 1)
      else if code == 503 then sendAttempts responses fp seen1 (attempt + 1) fuel (posted + 1)
      else (false, seen1, posted + 1)

/-- `feed_collector.py: send_to_webhook`.  `fp` stands for the item's
`_fingerprint` (an MD5 hex digest, stdlib) and `stale` for `_is_stale`
(wall-clock dependent).  Returns the success flag, the new `_SEEN` cache and
the number of POSTs performed. -/
def send_to_webhook (responses : Nat → HttpResult) (fp : String) (stale : Bool)
    (seen : List String) : Bool × List String × Nat :=
  if seen.contains fp then (false, seen, 0)
  else if stale then (false, seen, 0)
  else sendAttempts responses fp seen 1 MAX_BUSY_RETRIES 0

/-- Character-level substring containment; stands in for `re.search` of a fixed
literal-word pattern on the concrete texts used in the counterexamples. -/
def hasSub : List Char → List Char → Bool
  | [], needle => needle.isEmpty
  | h :: t, needle => needle.isPrefixOf (h :: t) || hasSub t needle

/-- Substring containment on strings. -/
def containsStr (hay needle : String) : Bool :=
  hasSub hay.data needle.data

/-! ### Concrete fixtures used by the witnesses and counterexamples -/

/-- A well-formed payload whose domain is in the allowed set. -/
def techPayload : JValue :=
  .jobj [("domain", .jstr "Technology"), ("headline", .jstr "New AI Chip Released"),
         ("content", .jstr "A major company unveiled a new chip."),
         ("sources", .jarr [.jstr "https://example.com/a"]),
         ("timestamp", .jstr "2026-02-18T17:00:00+00:00")]

/-- A payload that is well formed except that its domain is outside
`ALLOWED_DOMAINS`. -/
def sportsPayload : JValue :=
  .jobj [("domain", .jstr "Sports"), ("headline", .jstr "Big Game Tonight"),
         ("content", .jstr "Lots of sports."),
         ("sources", .jarr [.jstr "https://example.com/s"]),
         ("timestamp", .jstr "2026-02-18T17:00:00+00:00")]

/-- A concrete request environment (secret configured, stdlib parser accepting). -/
def witEnv : Env :=
  { webhook_secret := "sek", iso_ok := fun _ => true,
    now_iso := "2026-02-18T17:01:00", now := 5, fresh_id := "id-1" }

/-- A gate currently held for another headline. -/
def witBusyGate : AgentState :=
  { busy := true, current_headline := some "First story", busy_since := some 1 }

/-- A placeholder row in `processing` status. -/
def witProcessingRow : Post :=
  { id := "p1", title := "Old Title", domain := "Technology", summary := "",
    content := "", key_points := [], why_this_matters := "", sources := [],
    confidence_score := 0, created_at := "2026-02-18T16:00:00",
    status := "processing", headline_hash := "old title" }

/-- A published row. -/
def witPublishedRow : Post :=
  { id := "p2", title := "Done Title", domain := "Science", summary := "sum",
    content := "body", key_points := ["k"], why_this_matters := "w",
    sources := ["s"], confidence_score := 80, created_at := "2026-02-18T15:00:00",
    status := "published", headline_hash := "done title" }

/-- A rejected row. -/
def witRejectedRow : Post :=
  { id := "p3", title := "Bad Title", domain := "Health", summary := "",
    content := "", key_points := [], why_this_matters := "", sources := [],
    confidence_score := 0, created_at := "2026-02-18T14:00:00",
    status := "rejected", headline_hash := "bad title" }

/-! ### Claim theorems -/

/-- C2: the gate invariant (busy implies headline and timestamp set, not-busy
implies both cleared) holds initially and is preserved by `try_acquire` and
`release`; `try_acquire` while busy returns `false` with no state change, and
`release` while already ready leaves the state unchanged (and, being a total
function, does not raise). -/
theorem c2_gate_state_invariant :
    gateInv AgentState.mk0 ∧
    (∀ (s : AgentState) (now : Nat) (hl : String),
      gateInv s → gateInv (s.try_acquire now hl).2) ∧
    (∀ s : AgentState, gateInv s → gateInv s.release) ∧
    (∀ (s : AgentState) (now : Nat) (hl : String),
      s.busy = true → s.try_acquire now hl = (false, s)) ∧
    (∀ s : AgentState, s.busy = false → s.release = s) := by
  refine ⟨by decide, ?_, ?_, ?_, ?_⟩
  · intro s now hl hs
    by_cases hb : s.busy <;> simp [AgentState.try_acquire, hb, gateInv] at hs ⊢
    exact hs
  · intro s hs
    by_cases hb : s.busy <;> simp [AgentState.release, hb, gateInv] at hs ⊢
    exact hs
  · intro s now hl hb
    simp [AgentState.try_acquire, hb]
  · intro s hb
    simp [AgentState.release, hb]

/-- Witness for C2 at concrete states. -/
theorem c2_gate_state_invariant_witness :
    gateInv ((AgentState.mk0.try_acquire 3 "h").2) ∧
    witBusyGate.try_acquire 7 "other" = (false, witBusyGate) ∧
    AgentState.mk0.release = AgentState.mk0 :=
  ⟨c2_gate_state_invariant.2.1 AgentState.mk0 3 "h" (by decide),
   c2_gate_state_invariant.2.2.2.1 witBusyGate 7 "other" (by decide),
   c2_gate_state_invariant.2.2.2.2 AgentState.mk0 (by decide)⟩

/-- C10: with an empty configured secret, no token validates, and every request
is answered 401 with body status `error`, leaving gate and store untouched. -/
theorem c10_empty_secret_rejects_all (env : Env)
    (hsec : env.webhook_secret = "") :
    (∀ token, token_valid env token = false) ∧
    (∀ (token : String) (is_json : Bool) (body : Option JValue)
       (gate : AgentState) (store : List Post),
      (receive_update env token is_json body gate store).1.code = 401 ∧
      (receive_update env token is_json body gate store).1.status = "error" ∧
      (receive_update env token is_json body gate store).2.1 = gate ∧
      (receive_update env token is_json body gate store).2.2 = store) := by
  have htv : ∀ token, token_valid env token = false := by
    intro token
    simp [token_valid, Env.get_secret, hsec]
  refine ⟨htv, ?_⟩
  intro token is_json body gate store
  by_cases ht : token = ""
  · simp [receive_update, ht]
  · simp [receive_update, ht, htv token]

/-- Witness for C10: concrete empty-secret environment, both with the empty
token and with a non-empty token. -/
theorem c10_empty_secret_rejects_all_witness :
    token_valid { witEnv with webhook_secret := "" } "sek" = false ∧
    (receive_update { witEnv with webhook_secret := "" } "sek" true (some techPayload)
      AgentState.mk0 []).1.code = 401 ∧
    (receive_update { witEnv with webhook_secret := "" } "" true (some techPayload)
      AgentState.mk0 []).1.code = 401 :=
  ⟨(c10_empty_secret_rejects_all { witEnv with webhook_secret := "" } rfl).1 "sek",
   ((c10_empty_secret_rejects_all { witEnv with webhook_secret := "" } rfl).2
     "sek" true (some techPayload) AgentState.mk0 []).1,
   ((c10_empty_secret_rejects_all { witEnv with webhook_secret := "" } rfl).2
     "" true (some techPayload) AgentState.mk0 []).1⟩

/-- C5: the code never checks membership of the domain field in
`ALLOWED_DOMAINS` — a payload whose domain is outside the allowed set passes
`validate_payload` and is admitted (202), instead of being rejected with 400
as the claim states. -/
theorem c5_domain_not_checked :
    ALLOWED_DOMAINS.contains "Sports" = false ∧
    validate_payload (fun _ => true) sportsPayload = (true, none) ∧
    (receive_update witEnv "sek" true (some sportsPayload) AgentState.mk0 []).1.code = 202 ∧
    (receive_update witEnv "sek" true (some sportsPayload) AgentState.mk0 []).1.status
      = "accepted" := by
  decide

/-- C6: `headline_exists` is true exactly when some stored row carries the
normalised headline hash with status `published` or `processing`; when every
such row is `rejected` it is false. -/
theorem c6_headline_exists_iff (store : List Post) (H : String) :
    (headline_exists store H = true ↔
      ∃ p ∈ store, p.headline_hash = normalise H ∧
        (p.status = "published" ∨ p.status = "processing")) ∧
    ((∀ p ∈ store, p.headline_hash = normalise H → p.status = "rejected") →
      headline_exists store H = false) := by
  constructor
  · simp [headline_exists, List.any_eq_true]
  · intro hall
    by_contra hne
    have hex : headline_exists store H = true := by
      cases hb : headline_exists store H
      · exact absurd hb hne
      · rfl
    rw [headline_exists] at hex
    simp [List.any_eq_true] at hex
    obtain ⟨p, hp, hhash, hstat⟩ := hex
    have := hall p hp hhash
    rcases hstat with h | h <;> rw [h] at this <;> exact absurd this (by decide)

/-- Witness for C6: one published row makes its headline a duplicate; a store
holding only a rejected row with the matching hash reports not-exists. -/
theorem c6_headline_exists_iff_witness :
    headline_exists [witRejectedRow] "Bad Title" = false ∧
    headline_exists [witPublishedRow] "Done Title" = true :=
  ⟨(c6_headline_exists_iff [witRejectedRow] "Bad Title").2 (by decide),
   (c6_headline_exists_iff [witPublishedRow] "Done Title").1.mpr
     ⟨witPublishedRow, by decide, by decide, Or.inl (by decide)⟩⟩

/-- No `SET` clause of `update_post` touches the `headline_hash` column. -/
theorem setField_headline_hash (p : Post) (k : String) (v : FieldVal) :
    (setField p k v).headline_hash = p.headline_hash := by
  unfold setField
  split_ifs <;> cases v <;> rfl

/-- No `SET` clause of `update_post` touches the primary key. -/
theorem setField_id (p : Post) (k : String) (v : FieldVal) :
    (setField p k v).id = p.id := by
  unfold setField
  split_ifs <;> cases v <;> rfl

/-- Applying any sequence of `SET` clauses preserves `headline_hash`. -/
theorem foldl_setField_headline_hash (updates : List (String × FieldVal))
    (l : List String) (p : Post) :
    (l.foldl (fun q k =>
      match updates.lookup k with
      | some v => setField q k v
      | none => q) p).headline_hash = p.headline_hash := by
  induction l generalizing p with
  | nil => rfl
  | cons k rest ih =>
    simp only [List.foldl_cons]
    cases h : updates.lookup k with
    | none => simp only [h, ih]
    | some v => simp only [h, ih, setField_headline_hash]

/-- Applying any sequence of `SET` clauses preserves the primary key. -/
theorem foldl_setField_id (updates : List (String × FieldVal))
    (l : List String) (p : Post) :
    (l.foldl (fun q k =>
      match updates.lookup k with
      | some v => setField q k v
      | none => q) p).id = p.id := by
  induction l generalizing p with
  | nil => rfl
  | cons k rest ih =>
    simp only [List.foldl_cons]
    cases h : updates.lookup k with
    | none => simp only [h, ih]
    | some v => simp only [h, ih, setField_id]

/-- C7: `update_post` with an empty field map leaves the store unchanged, and
no call to `update_post` — whatever the field map contains — ever changes the
`headline_hash` column (nor the primary key) of any row. -/
theorem c7_update_post_frame (post_id : String) (updates : List (String × FieldVal))
    (store : List Post) :
    update_post post_id [] store = store ∧
    (update_post post_id updates store).map (fun p => p.headline_hash) =
      store.map (fun p => p.headline_hash) ∧
    (update_post post_id updates store).map (fun p => p.id) =
      store.map (fun p => p.id) := by
  refine ⟨rfl, ?_, ?_⟩ <;>
    · simp only [update_post]
      split
      · rfl
      · induction store with
        | nil => rfl
        | cons p rest ih =>
          simp only [List.map_cons, List.cons.injEq]
          refine ⟨?_, ih⟩
          split
          · first
              | exact foldl_setField_headline_hash updates _ p
              | exact foldl_setField_id updates _ p
          · rfl

/-- The `max_age = 0` branch of `cleanup_stale_processing`, unfolded. -/
theorem cleanup_zero (cutoff : String) (store : List Post) :
    cleanup_stale_processing 0 cutoff store =
      ((store.map fun p =>
          if p.status == "processing" then { p with status := "rejected" } else p),
       (store.filter fun p => p.status == "processing").length) := rfl

/-- C4: the startup sweep (`cleanup_stale_processing` with `max_age = 0`)
transitions every `processing` row — regardless of age — to `rejected`: no row
remains `processing`, every previously-`processing` row reappears as the same
row with status `rejected`, all other rows are untouched, the `rejected` count
grows by exactly the old `processing` count, and the reported `rowcount` is
the old `processing` count. -/
theorem c4_startup_sweep_rejects_processing (store : List Post) :
    (∀ q ∈ startup_sweep store, q.status ≠ "processing") ∧
    ((startup_sweep store).filter (fun p => p.status == "processing")).length = 0 ∧
    (startup_sweep store).length = store.length ∧
    (∀ p ∈ store, p.status = "processing" →
      { p with status := "rejected" } ∈ startup_sweep store) ∧
    (∀ p ∈ store, p.status ≠ "processing" → p ∈ startup_sweep store) ∧
    ((startup_sweep store).filter (fun p => p.status == "rejected")).length =
      (store.filter (fun p => p.status == "rejected")).length +
        (store.filter (fun p => p.status == "processing")).length ∧
    (cleanup_stale_processing 0 "" store).2 =
      (store.filter (fun p => p.status == "processing")).length := by
  refine ⟨?_, ?_, ?_, ?_, ?_, ?_, rfl⟩
  · intro q hq
    simp only [startup_sweep, cleanup_zero, List.mem_map] at hq
    obtain ⟨p, -, rfl⟩ := hq
    by_cases hp : (p.status == "processing") = true
    · rw [if_pos hp]
      show ("rejected" : String) ≠ "processing"
      decide
    · rw [if_neg hp]
      simpa using hp
  · rw [List.length_eq_zero, List.filter_eq_nil_iff]
    intro q hq
    simp only [startup_sweep, cleanup_zero, List.mem_map] at hq
    obtain ⟨p, -, rfl⟩ := hq
    by_cases hp : (p.status == "processing") = true
    · rw [if_pos hp]
      show ¬(("rejected" : String) == "processing") = true
      decide
    · rw [if_neg hp]
      exact hp
  · simp [startup_sweep, cleanup_zero]
  · intro p hp hstat
    simp only [startup_sweep, cleanup_zero, List.mem_map]
    refine ⟨p, hp, ?_⟩
    rw [if_pos (by simp [hstat])]
  · intro p hp hstat
    simp only [startup_sweep, cleanup_zero, List.mem_map]
    refine ⟨p, hp, ?_⟩
    rw [if_neg (by simp [hstat])]
  · simp only [startup_sweep, cleanup_zero]
    induction store with
    | nil => rfl
    | cons p rest ih =>
      simp only [List.map_cons, List.filter_cons]
      by_cases hp : p.status = "processing"
      · simp [hp] at ih ⊢
        omega
      · by_cases hr : p.status = "rejected"
        · simp [hp, hr] at ih ⊢
          omega
        · simp [hp, hr] at ih ⊢
          omega

/-- Witness for C4 on a concrete three-row store. -/
theorem c4_startup_sweep_rejects_processing_witness :
    ((startup_sweep [witProcessingRow, witPublishedRow, witRejectedRow]).filter
      (fun p => p.status == "processing")).length = 0 ∧
    { witProcessingRow with status := "rejected" } ∈
      startup_sweep [witProcessingRow, witPublishedRow, witRejectedRow] ∧
    witPublishedRow ∈ startup_sweep [witProcessingRow, witPublishedRow, witRejectedRow] ∧
    (cleanup_stale_processing 0 "" [witProcessingRow, witPublishedRow, witRejectedRow]).2 = 1 :=
  ⟨(c4_startup_sweep_rejects_processing _).2.1,
   (c4_startup_sweep_rejects_processing
      [witProcessingRow, witPublishedRow, witRejectedRow]).2.2.2.1
     witProcessingRow (by decide) (by decide),
   (c4_startup_sweep_rejects_processing
      [witProcessingRow, witPublishedRow, witRejectedRow]).2.2.2.2.1
     witPublishedRow (by decide) (by decide),
   ((c4_startup_sweep_rejects_processing
      [witProcessingRow, witPublishedRow, witRejectedRow]).2.2.2.2.2.2).trans (by decide)⟩

/-- The retry loop performs at most `posted + fuel` POSTs in total. -/
theorem sendAttempts_posts_le (responses : Nat → HttpResult) (fp : String) :
    ∀ (fuel attempt posted : Nat) (seen : List String),
      (sendAttempts responses fp seen attempt fuel posted).2.2 ≤ posted + fuel := by
  intro fuel
  induction fuel with
  | zero =>
    intro attempt posted seen
    simp [sendAttempts]
  | succ n ih =>
    intro attempt posted seen
    simp only [sendAttempts]
    cases responses attempt with
    | connectionError =>
      show posted + 1 ≤ posted + (n + 1)
      omega
    | otherError =>
      show posted + 1 ≤ posted + (n + 1)
      omega
    | resp code =>
      dsimp only
      by_cases h202 : (code == 202) = true
      · rw [if_pos h202]
        show posted + 1 ≤ posted + (n + 1)
        omega
      · rw [if_neg h202]
        by_cases h200 : (code == 200) = true
        · rw [if_pos h200]
          show posted + 1 ≤ posted + (n + 1)
          omega
        · rw [if_neg h200]
          by_cases h503 : (code == 503) = true
          · rw [if_pos h503]
            calc (sendAttempts responses fp (fp :: seen) (attempt + 1) n (posted + 1)).2.2
                ≤ (posted + 1) + n := ih (attempt + 1) (posted + 1) (fp :: seen)
              _ = posted + (n + 1) := by omega
          · rw [if_neg h503]
            show posted + 1 ≤ posted + (n + 1)
            omega

/-- One loop iteration on a busy (503) response: add the fingerprint to the
cache, count the POST, and retry the same item. -/
theorem sendAttempts_busy_step (responses : Nat → HttpResult) (fp : String)
    (seen : List String) (attempt n posted : Nat)
    (h : responses attempt = .resp 503) :
    sendAttempts responses fp seen attempt (n + 1) posted =
      sendAttempts responses fp (fp :: seen) (attempt + 1) n (posted + 1) := by
  simp only [sendAttempts, h]
  rw [if_neg (by decide), if_neg (by decide), if_pos (by decide)]

/-- Under all-busy responses the loop returns `false` after exactly
`posted + fuel` POSTs. -/
theorem sendAttempts_all_busy (responses : Nat → HttpResult) (fp : String) :
    ∀ (fuel attempt posted : Nat) (seen : List String),
      (∀ i, attempt ≤ i → i < attempt + fuel → responses i = .resp 503) →
      (sendAttempts responses fp seen attempt fuel posted).1 = false ∧
      (sendAttempts responses fp seen attempt fuel posted).2.2 = posted + fuel := by
  intro fuel
  induction fuel with
  | zero =>
    intro attempt posted seen _
    simp [sendAttempts]
  | succ n ih =>
    intro attempt posted seen hall
    rw [sendAttempts_busy_step responses fp seen attempt n posted
      (hall attempt le_rfl (by omega))]
    have := ih (attempt + 1) (posted + 1) (fp :: seen)
      (fun i h1 h2 => hall i (by omega) (by omega))
    refine ⟨this.1, this.2.trans (by omega)⟩

/-- C8: when the server answers busy (503) on every attempt, the harvester
resubmits the same item exactly `MAX_BUSY_RETRIES = 10` times in total, then
drops it (returns `false`); no run of `send_to_webhook` ever performs more
than 10 POSTs, so an 11th submission never happens. -/
theorem c8_busy_retry_bounded (responses : Nat → HttpResult) (fp : String)
    (seen : List String)
    (hnew : seen.contains fp = false)
    (hbusy : ∀ i, 1 ≤ i → i ≤ MAX_BUSY_RETRIES → responses i = .resp 503) :
    (send_to_webhook responses fp false seen).1 = false ∧
    (send_to_webhook responses fp false seen).2.2 = MAX_BUSY_RETRIES ∧
    (∀ (responses2 : Nat → HttpResult) (fp2 : String) (stale : Bool)
       (seen2 : List String),
      (send_to_webhook responses2 fp2 stale seen2).2.2 ≤ MAX_BUSY_RETRIES) := by
  have hsend : send_to_webhook responses fp false seen =
      sendAttempts responses fp seen 1 MAX_BUSY_RETRIES 0 := by
    unfold send_to_webhook
    rw [if_neg (by simpa using hnew)]
    rfl
  have hall := sendAttempts_all_busy responses fp MAX_BUSY_RETRIES 1 0 seen
    (fun i h1 h2 => hbusy i h1 (by revert h2; simp [MAX_BUSY_RETRIES]; omega))
  refine ⟨by rw [hsend]; exact hall.1, by rw [hsend]; exact hall.2, ?_⟩
  intro responses2 fp2 stale seen2
  unfold send_to_webhook
  by_cases hc : (seen2.contains fp2) = true
  · rw [if_pos hc]
    exact Nat.zero_le _
  · rw [if_neg hc]
    cases stale with
    | true => exact Nat.zero_le _
    | false => exact sendAttempts_posts_le responses2 fp2 MAX_BUSY_RETRIES 1 0 seen2

/-- Witness for C8: an always-busy server, a fresh fingerprint, an empty cache. -/
theorem c8_busy_retry_bounded_witness :
    (send_to_webhook (fun _ => .resp 503) "fp0" false []).1 = false ∧
    (send_to_webhook (fun _ => .resp 503) "fp0" false []).2.2 = MAX_BUSY_RETRIES :=
  ⟨(c8_busy_retry_bounded (fun _ => .resp 503) "fp0" [] (by decide)
      (fun _ _ _ => rfl)).1,
   (c8_busy_retry_bounded (fun _ => .resp 503) "fp0" [] (by decide)
      (fun _ _ _ => rfl)).2.1⟩

/-- C1: an authenticated, well-formed, non-duplicate request arriving while
the gate is busy is answered 503 with body status `busy` carrying the gate's
current headline, and neither the gate nor the post store changes — in
particular no placeholder row is written. -/
theorem c1_busy_gate_rejects_503 (env : Env) (token : String) (data : JValue)
    (gate : AgentState) (store : List Post)
    (htok : token ≠ "")
    (hauth : token_valid env token = true)
    (hvalid : (validate_payload env.iso_ok data).1 = true)
    (hdup : headline_exists store (headlineOf (jfieldsOf data)) = false)
    (hbusy : gate.busy = true) :
    (receive_update env token true (some data) gate store).1.code = 503 ∧
    (receive_update env token true (some data) gate store).1.status = "busy" ∧
    (receive_update env token true (some data) gate store).1.current_headline.isSome = true ∧
    (receive_update env token true (some data) gate store).2.1 = gate ∧
    (receive_update env token true (some data) gate store).2.2 = store ∧
    (∀ c, gate.current_headline = some c → c ≠ "" →
      (receive_update env token true (some data) gate store).1.current_headline = some c) := by
  have hacq : gate.try_acquire env.now (headlineOf (jfieldsOf data)) = (false, gate) := by
    unfold AgentState.try_acquire
    rw [if_pos hbusy]
  rcases hv : validate_payload env.iso_ok data with ⟨b, m⟩
  have hb : b = true := by rw [hv] at hvalid; exact hvalid
  subst hb
  unfold receive_update
  rw [if_neg (by simpa using htok), if_neg (by simp [hauth]), if_neg (by decide)]
  dsimp only
  rw [hv]
  dsimp only
  rw [if_neg (by simp [hdup]), hacq]
  dsimp only
  refine ⟨rfl, rfl, ?_, rfl, rfl, ?_⟩
  · cases gate.current_headline <;> rfl
  · intro c hc hne
    rw [hc]
    dsimp only
    rw [if_neg (by simpa using hne)]

/-- C3: an authenticated, well-formed, non-duplicate request arriving while
the gate is free is answered 202 with body status `accepted` and the fresh
post id; a placeholder row with that id is appended to the store, carrying
the raw headline, domain and sources of the payload, status `processing`, and
empty/zero generated fields; the gate is now held for that headline. -/
theorem c3_accepted_202_placeholder (env : Env) (token : String) (data : JValue)
    (gate : AgentState) (store : List Post)
    (htok : token ≠ "")
    (hauth : token_valid env token = true)
    (hvalid : (validate_payload env.iso_ok data).1 = true)
    (hdup : headline_exists store (headlineOf (jfieldsOf data)) = false)
    (hfree : gate.busy = false)
    (hfresh : ∀ p ∈ store, p.id ≠ env.fresh_id) :
    (receive_update env token true (some data) gate store).1.code = 202 ∧
    (receive_update env token true (some data) gate store).1.status = "accepted" ∧
    (receive_update env token true (some data) gate store).1.post_id = some env.fresh_id ∧
    (receive_update env token true (some data) gate store).2.2 = store ++
      [{ id := env.fresh_id
         title := headlineOf (jfieldsOf data)
         domain := domainOf (jfieldsOf data)
         summary := ""
         content := ""
         key_points := []
         why_this_matters := ""
         sources := sourcesOf (jfieldsOf data)
         confidence_score := 0
         created_at := env.now_iso
         status := "processing"
         headline_hash := normalise (headlineOf (jfieldsOf data)) }] ∧
    (receive_update env token true (some data) gate store).2.1 =
      { busy := true
        current_headline := some (headlineOf (jfieldsOf data))
        busy_since := some env.now } := by
  have hacq : gate.try_acquire env.now (headlineOf (jfieldsOf data)) =
      (true, { busy := true
               current_headline := some (headlineOf (jfieldsOf data))
               busy_since := some env.now }) := by
    unfold AgentState.try_acquire
    rw [if_neg (by simp [hfree])]
  have hany : store.any (fun p => p.id == env.fresh_id) = false := by
    rw [List.any_eq_false]
    intro p hp
    simpa using hfresh p hp
  rcases hv : validate_payload env.iso_ok data with ⟨b, m⟩
  have hb : b = true := by rw [hv] at hvalid; exact hvalid
  subst hb
  unfold receive_update
  rw [if_neg (by simpa using htok), if_neg (by simp [hauth]), if_neg (by decide)]
  dsimp only
  rw [hv]
  dsimp only
  rw [if_neg (by simp [hdup]), hacq]
  dsimp only
  unfold save_post
  rw [if_neg (by simp [hany])]
  exact ⟨rfl, rfl, rfl, rfl, rfl⟩

/-- Witness for C1: concrete busy gate, valid token and payload, empty store. -/
theorem c1_busy_gate_rejects_503_witness :
    (receive_update witEnv "sek" true (some techPayload) witBusyGate []).1.code = 503 ∧
    (receive_update witEnv "sek" true (some techPayload) witBusyGate []).2.2 = [] ∧
    (receive_update witEnv "sek" true (some techPayload) witBusyGate []).1.current_headline
      = some "First story" := by
  have h := c1_busy_gate_rejects_503 witEnv "sek" techPayload witBusyGate []
    (by decide) (by decide) (by decide) (by decide) (by decide)
  exact ⟨h.1, h.2.2.2.2.1, h.2.2.2.2.2 "First story" rfl (by decide)⟩

/-- Witness for C3: concrete free gate, valid token and payload, empty store. -/
theorem c3_accepted_202_placeholder_witness :
    (receive_update witEnv "sek" true (some techPayload) AgentState.mk0 []).1.code = 202 ∧
    (receive_update witEnv "sek" true (some techPayload) AgentState.mk0 []).1.post_id
      = some "id-1" ∧
    (receive_update witEnv "sek" true (some techPayload) AgentState.mk0 []).2.2 =
      [{ id := "id-1", title := "New AI Chip Released", domain := "Technology",
         summary := "", content := "", key_points := [], why_this_matters := "",
         sources := ["https://example.com/a"], confidence_score := 0,
         created_at := "2026-02-18T17:01:00", status := "processing",
         headline_hash := "new ai chip released" }] := by
  have h := c3_accepted_202_placeholder witEnv "sek" techPayload AgentState.mk0 []
    (by decide) (by decide) (by decide) (by decide) (by decide) (by simp)
  exact ⟨h.1, h.2.2.1, h.2.2.2.1.trans (by decide)⟩

/-- A compiled blocklist entry standing for the `_VIOLENCE_TERMS` pattern
matching the phrase below (regex and substring search agree on the concrete
texts used here). -/
def bombPattern : String → Bool :=
  fun t => containsStr t "how to make a bomb"

/-- A one-entry compiled blocklist, as `_COMPILED` restricted to that pattern. -/
def bombCompiled : List (String × (String → Bool)) :=
  [("violent content", bombPattern)]

/-- A draft whose `content` field contains blocked text while every field the
filter actually reads is clean. -/
def bombDraft : GenPost :=
  { title := "T", summary := "S", content := "Instructions on how to make a bomb at home",
    key_points := ["K"], why_this_matters := "W", sources := ["s"],
    confidence_score := 40, domain := "Security" }

/-- A draft whose `title` contains blocked text (filter does read titles). -/
def badTitleDraft : GenPost :=
  { title := "how to make a bomb tutorial", summary := "S", content := "",
    key_points := [], why_this_matters := "W", sources := ["s"],
    confidence_score := 10, domain := "Security" }

/-- C9 counterexample: `build_check_text` omits the draft's `content` field,
so a blocked phrase appearing only in `content` — which does match the
claim's five-field concatenation — passes the safety filter and the
placeholder is published, not rejected. -/
theorem c9_content_not_checked_counterexample :
    bombPattern bombDraft.content = true ∧
    bombPattern (claimed_check_text bombDraft) = true ∧
    run_safety_filter bombCompiled (build_check_text bombDraft) = (true, none) ∧
    (moderate_and_finish bombCompiled bombDraft ["s"] "p1" [witProcessingRow]).1.1
      = "published" ∧
    ((moderate_and_finish bombCompiled bombDraft ["s"] "p1" [witProcessingRow]).2.map
      (fun p => p.status)) = ["published"] := by
  decide

/-- The safety-rejection path of the controller writes exactly these columns. -/
theorem update_post_reject_eq (generated : GenPost) (payload_sources : List String)
    (post_id : String) (store : List Post) :
    update_post post_id (rejectUpdates generated payload_sources) store =
      store.map (fun p =>
        if p.id == post_id then
          { p with title := generated.title
                   summary := generated.summary
                   key_points := generated.key_points
                   why_this_matters := generated.why_this_matters
                   sources := payload_sources
                   confidence_score := 0
                   status := "rejected" }
        else p) := rfl

/-- C9 (amended): the moderation stage runs the SafetyFilter over the
concatenation of the draft's title, summary, why_this_matters and key_points
— the `content` field is not part of the checked text — and any positive
match is a terminal rejection: the result status is `rejected`, the reason
string names the first matched category, the placeholder row is updated to
status `rejected`, and rows with other ids are untouched. -/
theorem c9_moderation_rejects (compiled : List (String × (String → Bool)))
    (generated : GenPost) (payload_sources : List String) (post_id : String)
    (store : List Post)
    (hmatch : (run_safety_filter compiled (build_check_text generated)).1 = false) :
    (∀ c, build_check_text { generated with content := c } = build_check_text generated) ∧
    (∃ cat matcher,
      compiled.find? (fun cp => cp.2 (build_check_text generated)) = some (cat, matcher) ∧
      matcher (build_check_text generated) = true ∧
      (moderate_and_finish compiled generated payload_sources post_id store).1.2 =
        "Content blocked: matched " ++ cat ++ " filter.") ∧
    (moderate_and_finish compiled generated payload_sources post_id store).1.1
      = "rejected" ∧
    (∀ p ∈ (moderate_and_finish compiled generated payload_sources post_id store).2,
      p.id = post_id → p.status = "rejected") ∧
    (∀ p ∈ (moderate_and_finish compiled generated payload_sources post_id store).2,
      p.id ≠ post_id → p ∈ store) := by
  cases hf : compiled.find? (fun cp => cp.2 (build_check_text generated)) with
  | none =>
    exfalso
    rw [run_safety_filter, hf] at hmatch
    exact absurd hmatch (by decide)
  | some cm =>
    obtain ⟨cat, matcher⟩ := cm
    have hrs : run_safety_filter compiled (build_check_text generated) =
        (false, some ("Content blocked: matched " ++ cat ++ " filter.")) := by
      rw [run_safety_filter, hf]
    have hmod : moderate_and_finish compiled generated payload_sources post_id store =
        (("rejected", "Content blocked: matched " ++ cat ++ " filter."),
         update_post post_id (rejectUpdates generated payload_sources) store) := by
      simp only [moderate_and_finish]
      rw [hrs]
      rfl
    refine ⟨fun c => rfl, ⟨cat, matcher, rfl, ?_, by rw [hmod]⟩, by rw [hmod], ?_, ?_⟩
    · have := List.find?_some hf
      simpa using this
    · intro p hp hid
      rw [hmod, update_post_reject_eq] at hp
      obtain ⟨q, -, rfl⟩ := List.mem_map.1 hp
      by_cases hq : (q.id == post_id) = true
      · rw [if_pos hq]
      · rw [if_neg hq] at hid ⊢
        exact absurd hid (by simpa using hq)
    · intro p hp hne
      rw [hmod, update_post_reject_eq] at hp
      obtain ⟨q, hqs, rfl⟩ := List.mem_map.1 hp
      by_cases hq : (q.id == post_id) = true
      · rw [if_pos hq] at hne ⊢
        exact absurd (by simpa using hq) hne
      · rw [if_neg hq]
        exact hqs

/-- Witness for C9 (amended): a draft whose title matches the blocklist is
terminally rejected. -/
theorem c9_moderation_rejects_witness :
    (moderate_and_finish bombCompiled badTitleDraft ["s"] "p1" [witProcessingRow]).1.1
      = "rejected" ∧
    ((moderate_and_finish bombCompiled badTitleDraft ["s"] "p1" [witProcessingRow]).2.map
      (fun p => p.status)) = ["rejected"] := by
  have h := c9_moderation_rejects bombCompiled badTitleDraft ["s"] "p1" [witProcessingRow]
    (by decide)
  exact ⟨h.2.2.1, by decide⟩

end CIN
